import Mathlib

/-!
Verification of the peloton goal-state engine and placement pipeline
against its specification. Each Go function under scrutiny is shallowly
embedded as an executable Lean definition; machine times are modelled as
`Int` (Unix-style instants passed explicitly where the Go code calls
`time.Now()`), protobuf pointer fields as `Option`, and fallible calls as
`Except`.
-/

namespace Peloton

/-- Peloton task states (peloton/api/task proto, `TaskState`). -/
inductive TaskState where
  | INITIALIZED
  | PENDING
  | LAUNCHED
  | RUNNING
  | SUCCEEDED
  | FAILED
  | KILLING
  | KILLED
  | LOST
  | DELETED
deriving DecidableEq

/-- Task runtime record (`task.RuntimeInfo`). The protobuf getter
`GetRevision().GetVersion()` collapses the nested `ChangeLog` pointer, so
the revision is kept here as a plain `Nat` (0 for an unset revision). -/
structure RuntimeInfo where
  state : TaskState
  goalState : TaskState
  configVersion : Nat
  desiredConfigVersion : Nat
  revision : Nat
  failureCount : Nat
  mesosTaskID : String
deriving DecidableEq

/-- The mutable fields of the tracked `task` struct
(src/jobmgr/tracked/task.go:97). The queue mixin is omitted: none of the
functions embedded here touch it. -/
structure TaskData where
  runtime : Option RuntimeInfo
  lastAction : String
  lastActionTime : Int
  lastRuntimeUpdateTime : Int
  killingAttempts : Nat
deriving DecidableEq

/-- Nil-safe `GetRevision().GetVersion()` on a possibly-nil runtime pointer. -/
def getRevisionVersion : Option RuntimeInfo → Nat
  | none => 0
  | some r => r.revision

/-- Embedding of `task.UpdateRuntime` (src/jobmgr/tracked/task.go:276).
`runtime` is the (possibly nil) incoming pointer, `now` the value of
`time.Now()` at the call. `reflect.DeepEqual` on the two pointers becomes
structural equality of the two `Option RuntimeInfo` values. Note that the
source's equal-revision branch assigns `t.runtime = nil` and then falls
through to the unconditional overwrite below it. -/
def updateRuntime (t : TaskData) (runtime : Option RuntimeInfo) (now : Int) : TaskData :=
  if t.runtime = runtime then t
  else if getRevisionVersion t.runtime > getRevisionVersion runtime then t
  else
    let t1 :=
      if t.runtime ≠ none ∧ getRevisionVersion t.runtime = getRevisionVersion runtime then
        { t with runtime := none }
      else t
    { t1 with runtime := runtime, lastRuntimeUpdateTime := now }

/-- Embedding of `task.reloadRuntime` (src/jobmgr/tracked/task.go:337).
`stored` is the result of `taskStore.GetTaskRuntime`; the returned pair is
the task state after the call together with the Go error value. On a store
error the cache is untouched and the error is passed through; on success
the cache is updated via `UpdateRuntime` and the sentinel error is
returned. -/
def reloadRuntime (t : TaskData) (stored : Except String RuntimeInfo) (now : Int) :
    TaskData × Except String Unit :=
  match stored with
  | .error e => (t, .error e)
  | .ok runtime => (updateRuntime t (some runtime) now, .error "runtime reloaded after error")

/-! ### Mesos state translation and the mesos task-id parser
(src/unnamed/part_002, package util). -/

/-- Mesos task states (`mesos/v1` `TaskState`). -/
inductive MesosTaskState where
  | TASK_STAGING
  | TASK_STARTING
  | TASK_RUNNING
  | TASK_KILLING
  | TASK_FINISHED
  | TASK_FAILED
  | TASK_KILLED
  | TASK_ERROR
  | TASK_LOST
  | TASK_DROPPED
  | TASK_UNREACHABLE
  | TASK_GONE
  | TASK_GONE_BY_OPERATOR
  | TASK_UNKNOWN
deriving DecidableEq

/-- Embedding of `util.MesosStateToPelotonState` (src/unnamed/part_002:153):
the switch over the mesos state, with the default branch mapping every other
state to INITIALIZED. -/
def MesosStateToPelotonState : MesosTaskState → TaskState
  | .TASK_STAGING => .LAUNCHED
  | .TASK_STARTING => .LAUNCHED
  | .TASK_RUNNING => .RUNNING
  | .TASK_KILLING => .RUNNING
  | .TASK_FINISHED => .SUCCEEDED
  | .TASK_FAILED => .FAILED
  | .TASK_KILLED => .KILLED
  | .TASK_LOST => .LOST
  | .TASK_ERROR => .FAILED
  | _ => .INITIALIZED

/-- The translation table exactly as claim C8 states it, grouped by target
state, to be compared with the source's switch. -/
def mesosStateToPelotonStateClaim (m : MesosTaskState) : TaskState :=
  if m = .TASK_STAGING ∨ m = .TASK_STARTING then .LAUNCHED
  else if m = .TASK_RUNNING ∨ m = .TASK_KILLING then .RUNNING
  else if m = .TASK_FINISHED then .SUCCEEDED
  else if m = .TASK_FAILED ∨ m = .TASK_ERROR then .FAILED
  else if m = .TASK_KILLED then .KILLED
  else if m = .TASK_LOST then .LOST
  else .INITIALIZED

/-- The value of a decimal digit run, most significant first (Go `strconv`
accumulates the same way). -/
def digitsVal (l : List Char) : Nat :=
  l.foldl (fun a c => 10 * a + (c.toNat - 48)) 0

/-- One or more characters, all of them decimal digits. -/
def isDigits (l : List Char) : Bool :=
  !l.isEmpty && l.all (fun c => c.isDigit)

/-- Embedding of Go `strconv.Atoi` on a 64-bit platform (as called at
src/unnamed/part_002:207): an optional single sign followed by one or more
decimal digits, the value within the signed 64-bit int range; `none` is
the error case (ErrRange included, which Atoi also reports as an error). -/
def goAtoi (l : List Char) : Option Int :=
  match l with
  | [] => none
  | c :: rest =>
    if c = '+' then
      if isDigits rest ∧ digitsVal rest < 2 ^ 63 then some (digitsVal rest) else none
    else if c = '-' then
      if isDigits rest ∧ digitsVal rest ≤ 2 ^ 63 then some (-(digitsVal rest : Int)) else none
    else
      if isDigits (c :: rest) ∧ digitsVal (c :: rest) < 2 ^ 63 then
        some (digitsVal (c :: rest))
      else none

/-- Embedding of `util.ParseTaskIDFromMesosTaskID` (src/unnamed/part_002:198):
split on "-", require at least 2 segments, read the second with
`strconv.Atoi`, and render the result with `fmt.Sprintf("%s-%d", jobID, iID)`. -/
def ParseTaskIDFromMesosTaskID (mesosTaskID : String) : Except String String :=
  if (mesosTaskID.splitOn "-").length < 2 then
    .error ("Invalid peloton mesos task ID " ++ mesosTaskID)
  else
    match goAtoi ((mesosTaskID.splitOn "-").getD 1 "").data with
    | none => .error ("Invalid peloton mesos task ID " ++ mesosTaskID)
    | some i => .ok ((mesosTaskID.splitOn "-").getD 0 "" ++ "-" ++ toString i)

/-- A leading sign character, dropped before reading the digits. -/
def stripSign (l : List Char) : List Char :=
  match l with
  | [] => []
  | c :: rest => if c = '+' ∨ c = '-' then rest else c :: rest

/-- Claim C9's "the second segment is a decimal integer", spelled out
syntactically: after an optional sign, one or more decimal digits whose
value fits the signed 64-bit int range. -/
def isDecimalIntChars (l : List Char) : Bool :=
  isDigits (stripSign l) &&
    (if l.headD ' ' = '-' then decide (digitsVal (stripSign l) ≤ 2 ^ 63)
     else decide (digitsVal (stripSign l) < 2 ^ 63))

/-- The integer a decimal segment denotes (sign applied). -/
def decimalIntCharsVal (l : List Char) : Int :=
  if l.headD ' ' = '-' then -(digitsVal (stripSign l) : Int)
  else (digitsVal (stripSign l) : Int)

/-- Claim C9's description of the parser as an Option-valued function:
succeed exactly when there are at least two '-'-separated segments and the
second is a decimal integer, returning the first segment joined with the
numeric instance id. -/
def parseTaskIDClaim (s : String) : Option String :=
  if 2 ≤ (s.splitOn "-").length ∧ isDecimalIntChars ((s.splitOn "-").getD 1 "").data then
    some ((s.splitOn "-").getD 0 "" ++ "-" ++
      toString (decimalIntCharsVal ((s.splitOn "-").getD 1 "").data))
  else none

/-! ### Batch placement strategy (package batch, third document of
src/jobmgr/tracked/task.go, lines 432-548). -/

/-- Modelled from the spec: `hostmgr/scalar.Resources`, the scalar
resource vector (cpu, mem, disk, gpu) the placement strategy accounts
with. The scalar package itself is not under src/ (only its caller
`fillOffer` is); the spec fixes its meaning — a demand fits when it can be
subtracted from the host's remaining resources without going negative.
Amounts are rationals standing for the Go float64 values, read exactly. -/
structure Resources where
  cpu : ℚ
  mem : ℚ
  disk : ℚ
  gpu : ℚ
deriving DecidableEq

/-- Componentwise sum of two resource vectors. -/
def Resources.add (a b : Resources) : Resources :=
  ⟨a.cpu + b.cpu, a.mem + b.mem, a.disk + b.disk, a.gpu + b.gpu⟩

/-- Modelled from the spec: `scalar.Resources.TrySubtract` — subtract a
usage vector componentwise, failing (`none`) when any component would go
negative. -/
def Resources.TrySubtract (r u : Resources) : Option Resources :=
  if u.cpu ≤ r.cpu ∧ u.mem ≤ r.mem ∧ u.disk ≤ r.disk ∧ u.gpu ≤ r.gpu then
    some ⟨r.cpu - u.cpu, r.mem - u.mem, r.disk - u.disk, r.gpu - u.gpu⟩
  else none

/-- Componentwise non-negativity of a resource vector (true of every real
mesos offer). -/
def Resources.NonNeg (r : Resources) : Prop :=
  0 ≤ r.cpu ∧ 0 ≤ r.mem ∧ 0 ≤ r.disk ∧ 0 ≤ r.gpu

/-- Componentwise order on resource vectors. -/
def Resources.Le (a b : Resources) : Prop :=
  a.cpu ≤ b.cpu ∧ a.mem ≤ b.mem ∧ a.disk ≤ b.disk ∧ a.gpu ≤ b.gpu

instance (r : Resources) : Decidable r.NonNeg :=
  inferInstanceAs (Decidable (0 ≤ r.cpu ∧ 0 ≤ r.mem ∧ 0 ≤ r.disk ∧ 0 ≤ r.gpu))

/-- A mesos port range, begin and end inclusive (uint64 fields). -/
structure PortRange where
  rangeBegin : Nat
  rangeEnd : Nat
deriving DecidableEq

/-- A host offer as the batch strategy reads it: the "ports" ranges of the
offer's resources, and their scalar summary
(`scalar.FromMesosResources`). -/
structure Host where
  portRanges : List PortRange
  resources : Resources
deriving DecidableEq

/-- An assignment's task demand: `Task().GetNumPorts()` and
`scalar.FromResourceConfig(Task().GetResource())`. -/
structure Assignment where
  numPorts : Nat
  resource : Resources
deriving DecidableEq

/-- uint64 truncation. -/
def u64 (n : Nat) : Nat := n % 2 ^ 64

/-- Embedding of `batch.availablePorts` (src/jobmgr/tracked/task.go:452):
sum `end - begin + 1` over every port range, in wrapping uint64
arithmetic exactly as Go computes it. -/
def availablePorts (ranges : List PortRange) : Nat :=
  ranges.foldl
    (fun ports r =>
      u64 (ports + u64 (u64 (u64 r.rangeEnd + 2 ^ 64 - u64 r.rangeBegin) + 1)))
    0

/-- Embedding of the loop of `batch.fillOffer`
(src/jobmgr/tracked/task.go:467): walk the unassigned list in input
order threading the remaining port and scalar budgets; on the first
assignment that does not fit, stop and return the remaining suffix
`unassigned[i:]`. The `placement.SetHost(offer)` side effect becomes the
first component of the result: the assignments assigned to this offer, in
order. -/
def fillOfferLoop (remainPorts : Nat) (remain : Resources) :
    List Assignment → List Assignment × List Assignment
  | [] => ([], [])
  | a :: rest =>
    if remainPorts < a.numPorts then ([], a :: rest)
    else
      match remain.TrySubtract a.resource with
      | none => ([], a :: rest)
      | some remain2 =>
        let out := fillOfferLoop (remainPorts - a.numPorts) remain2 rest
        (a :: out.1, out.2)

/-- Embedding of `batch.fillOffer`: run the loop from the offer's
available ports and scalar resources. The source returns only the
unassigned tail (`nil` when every assignment was assigned); here the
assigned prefix is returned alongside it. -/
def fillOffer (offer : Host) (unassigned : List Assignment) :
    List Assignment × List Assignment :=
  fillOfferLoop (availablePorts offer.portRanges) offer.resources unassigned

/-- Total port demand of a list of assignments. -/
def totalPorts (l : List Assignment) : Nat :=
  (l.map (fun a => a.numPorts)).sum

/-- Total scalar demand of a list of assignments. -/
def totalUsage (l : List Assignment) : Resources :=
  l.foldr (fun a acc => a.resource.add acc) ⟨0, 0, 0, 0⟩

/-- One admission step as claim C4 reads it: an assignment fits when its
port demand is within the remaining ports and its scalar demand subtracts
from the remaining resources; on success, the budgets after admitting
it. -/
def fitsStep (st : Nat × Resources) (a : Assignment) : Option (Nat × Resources) :=
  if st.1 < a.numPorts then none
  else
    match st.2.TrySubtract a.resource with
    | none => none
    | some r2 => some (st.1 - a.numPorts, r2)

/-- Admit a list of assignments in order, threading the budgets. -/
def admitAll (st : Nat × Resources) : List Assignment → Option (Nat × Resources)
  | [] => some st
  | a :: rest =>
    match fitsStep st a with
    | none => none
    | some st2 => admitAll st2 rest

/-- Scenario S1's offer: 4 cpus, 4096 mem, ports 100..103. -/
def offerS1 : Host := { portRanges := [⟨100, 103⟩], resources := ⟨4, 4096, 0, 0⟩ }

/-- Scenario S1's tasks: two assignments of 2 cpus, 1024 mem, 2 ports
each. -/
def tasksS1 : List Assignment := [⟨2, ⟨2, 1024, 0, 0⟩⟩, ⟨2, ⟨2, 1024, 0, 0⟩⟩]

/-! ### Offer pool expiry (package offer; the pool implementation is not
under src/, only TestRemoveExpiredOffers, second document of
src/jobmgr/tracked/task.go, lines 371-432). -/

/-- An offer held by the pool: its mesos OfferID and arrival timestamp. -/
structure PoolOffer where
  offerID : String
  timestamp : Int
deriving DecidableEq

/-- The offer pool state the test exercises: the held offers (the
`offers map[string]*Offer` map becomes a list of entries) and the
configured hold time. -/
structure OfferPool where
  offers : List PoolOffer
  offerHoldTime : Int
deriving DecidableEq

/-- Modelled from the spec: `offerPool.RemoveExpiredOffers(force)` — the
implementation is absent from src/ (only its test is present). Per the
spec it returns and removes the offers whose age `now - timestamp`
exceeds the hold time, or every offer when `force` is set, leaving the
younger offers in the pool; `now` stands for `time.Now()` at the call. -/
def RemoveExpiredOffers (p : OfferPool) (now : Int) (force : Bool) :
    List PoolOffer × OfferPool :=
  (p.offers.filter (fun o => force || decide (p.offerHoldTime < now - o.timestamp)),
    { p with
      offers :=
        p.offers.filter (fun o => !(force || decide (p.offerHoldTime < now - o.timestamp))) })

/-! ### Rolling-update failure policy (`UpdateRun`; the implementation is
not under src/, only its tests in src/master/job/manager.go). -/

/-- Update workflow states (`pbupdate.State`). -/
inductive UpdateState where
  | INITIALIZED
  | ROLLING_FORWARD
  | ROLLING_BACKWARD
  | PAUSED
  | SUCCEEDED
  | FAILED
  | ABORTED
deriving DecidableEq

/-- Update workflow configuration (`pbupdate.UpdateConfig`). -/
structure UpdateConfig where
  batchSize : Nat
  maxFailureInstances : Nat
  maxInstanceAttempts : Nat
  rollbackOnFailure : Bool
deriving DecidableEq

/-- The per-update data an UpdateRun reads and writes: the workflow state
and the current and target job configuration versions. -/
structure UpdateData where
  state : UpdateState
  currentJobVersion : Nat
  targetJobVersion : Nat
deriving DecidableEq

/-- Classification of one in-flight instance (spec step 4): complete at
the target version, failed by policy, or still in progress. -/
inductive InstanceClass where
  | done
  | failed
  | inProgress
deriving DecidableEq

/-- How an UpdateRun ends (spec steps 7 and 8): roll back with swapped
versions, write FAILED progress and enqueue for finalization, write
SUCCEEDED and untrack, or keep rolling. -/
inductive UpdateRunOutcome where
  | rollbackToBackward (u : UpdateData)
  | writeFailedAndFinalize
  | writeSucceededAndUntrack
  | continueRolling
deriving DecidableEq

/-- Number of instances classified failed. -/
def failedCount (classes : List InstanceClass) : Nat :=
  (classes.filter (fun c => c = InstanceClass.failed)).length

/-- Number of instances classified done. -/
def doneCount (classes : List InstanceClass) : Nat :=
  (classes.filter (fun c => c = InstanceClass.done)).length

/-- Modelled from the spec: the failure-policy and completion steps (7-8)
of one `UpdateRun`; the implementation is absent from src/ (only its
tests are present). Per spec step 7, when the failed count reaches
`max_failure_instances` and `rollback_on_failure` is set with the update
ROLLING_FORWARD, the current and target config versions are swapped and
the state becomes ROLLING_BACKWARD; otherwise progress is written with
state FAILED and the update is enqueued for finalization. The tests show
an unset `MaxFailureInstances` (that is, 0) disables the failure policy
(TestRunningUpdate proceeds with 0), hence the positivity guard. Per spec
step 8, when every instance is done the run writes SUCCEEDED and enqueues
the update for untracking. -/
def updateRunProgress (u : UpdateData) (cfg : UpdateConfig)
    (classes : List InstanceClass) : UpdateRunOutcome :=
  if 0 < cfg.maxFailureInstances ∧ cfg.maxFailureInstances ≤ failedCount classes then
    if cfg.rollbackOnFailure ∧ u.state = UpdateState.ROLLING_FORWARD then
      UpdateRunOutcome.rollbackToBackward
        { state := UpdateState.ROLLING_BACKWARD,
          currentJobVersion := u.targetJobVersion,
          targetJobVersion := u.currentJobVersion }
    else UpdateRunOutcome.writeFailedAndFinalize
  else if doneCount classes = classes.length then
    UpdateRunOutcome.writeSucceededAndUntrack
  else UpdateRunOutcome.continueRolling

/-- Scenario S4's update: ROLLING_FORWARD from config version 3 toward 4. -/
def updateS4 : UpdateData :=
  { state := UpdateState.ROLLING_FORWARD, currentJobVersion := 3, targetJobVersion := 4 }

/-- Scenario S4's configuration: max_failure 3, rollback on failure. -/
def cfgS4 : UpdateConfig :=
  { batchSize := 0, maxFailureInstances := 3, maxInstanceAttempts := 0,
    rollbackOnFailure := true }

/-- Scenario S4's instances: 3 failed among 7. -/
def classesS4 : List InstanceClass :=
  [.failed, .failed, .failed, .done, .done, .done, .done]

/-! ### Recovery of INITIALIZED jobs (src/jobmgr/job/recovery.go) and the
default task goal state (src/jobmgr/task/util.go). -/

/-- Job types (`job.JobType`). -/
inductive JobType where
  | BATCH
  | SERVICE
deriving DecidableEq

/-- Embedding of `task.GetDefaultTaskGoalState` (src/jobmgr/task/util.go:47):
RUNNING for SERVICE jobs, SUCCEEDED for every other job type. -/
def GetDefaultTaskGoalState : JobType → TaskState
  | JobType.SERVICE => TaskState.RUNNING
  | _ => TaskState.SUCCEEDED

/-- A stored task record as recovery reads and creates it. -/
structure TaskInfo where
  runtime : RuntimeInfo
  instanceID : Nat
  jobID : String
deriving DecidableEq

/-- Embedding of `createTaskForJob` (src/jobmgr/job/recovery.go:197): the
task created for an instance missing from the store — state INITIALIZED,
goal state hardcoded to SUCCEEDED (the source's comment: a new task is by
default treated as a batch task, with a TODO that long-running tasks need
RUNNING), mesos task id "jobID-instance-uuid". Proto fields the function
leaves unset are zero. -/
def createTaskForJob (jobID : String) (i : Nat) (uuid : String) : TaskInfo :=
  { runtime :=
      { state := TaskState.INITIALIZED,
        goalState := TaskState.SUCCEEDED,
        configVersion := 0, desiredConfigVersion := 0, revision := 0, failureCount := 0,
        mesosTaskID := jobID ++ "-" ++ toString i ++ "-" ++ uuid },
    instanceID := i, jobID := jobID }

/-- What recovery does with one instance of an INITIALIZED job. -/
inductive RecoverAction where
  | createAndRequeue (t : TaskInfo)
  | requeue
  | leaveAlone
deriving DecidableEq

/-- Embedding of the per-instance branch of `Recovery.recoverJob`
(src/jobmgr/job/recovery.go:130-169): an instance missing from the store
is created via `createTaskForJob` and queued to the resource manager; a
stored instance still INITIALIZED is requeued; any other stored instance
is left alone. -/
def recoverInstance (jobID : String) (i : Nat) (uuid : String)
    (stored : Option TaskInfo) : RecoverAction :=
  match stored with
  | none => RecoverAction.createAndRequeue (createTaskForJob jobID i uuid)
  | some t =>
    if t.runtime.state = TaskState.INITIALIZED then RecoverAction.requeue
    else RecoverAction.leaveAlone

/-- Concrete runtime with revision 5, used to instantiate the cache claims. -/
def rtRev5 : RuntimeInfo :=
  { state := .RUNNING, goalState := .RUNNING, configVersion := 1,
    desiredConfigVersion := 1, revision := 5, failureCount := 0, mesosTaskID := "j-0-1" }

/-- Stale incoming runtime with revision 4. -/
def rtRev4 : RuntimeInfo :=
  { rtRev5 with state := .FAILED, revision := 4 }

/-- Equal-revision incoming runtime: revision 5 like `rtRev5` but a
different state, so the two are not deep-equal. -/
def rtRev5' : RuntimeInfo :=
  { rtRev5 with state := .FAILED }

/-- A tracked task whose cached runtime is `rtRev5`. -/
def taskRev5 : TaskData :=
  { runtime := some rtRev5, lastAction := "start_task", lastActionTime := 11,
    lastRuntimeUpdateTime := 42, killingAttempts := 0 }

end Peloton

namespace Peloton

/-- C1: a runtime update whose revision is strictly below the cached
revision is dropped whole: `UpdateRuntime` leaves the cached runtime, the
last-runtime-update time and every other task field unchanged. -/
theorem updateRuntime_stale_dropped (t : TaskData) (rt newRt : RuntimeInfo) (now : Int)
    (hc : t.runtime = some rt) (hlt : newRt.revision < rt.revision) :
    updateRuntime t (some newRt) now = t := by
  have hne : t.runtime ≠ some newRt := by
    rw [hc]
    intro h
    have h2 := Option.some.inj h
    subst h2
    omega
  have hgt : getRevisionVersion t.runtime > getRevisionVersion (some newRt) := by
    rw [hc]
    simpa [getRevisionVersion] using hlt
  unfold updateRuntime
  rw [if_neg hne, if_pos hgt]

/-- C1 witness: the stale-update claim at a concrete task (cached revision
5, incoming revision 4), every hypothesis discharged by evaluation. -/
theorem updateRuntime_stale_dropped_witness :
    taskRev5.runtime = some rtRev5 ∧ rtRev4.revision < rtRev5.revision ∧
      updateRuntime taskRev5 (some rtRev4) 100 = taskRev5 :=
  ⟨rfl, by decide, updateRuntime_stale_dropped taskRev5 rtRev5 rtRev4 100 rfl (by decide)⟩

/-- C2 (code bug): on an incoming runtime with the same revision as the
cache but different contents, the source's `t.runtime = nil` assignment is
immediately overwritten, so the cache ends up holding the new runtime (and
the last-update time is bumped) instead of being left nil for a reload, as
the function's own comment and the spec prescribe. -/
theorem updateRuntime_equal_revision_overwrites :
    (updateRuntime taskRev5 (some rtRev5') 100).runtime = some rtRev5' ∧
      (updateRuntime taskRev5 (some rtRev5') 100).runtime ≠ none ∧
      (updateRuntime taskRev5 (some rtRev5') 100).lastRuntimeUpdateTime = 100 := by
  refine ⟨by decide, by decide, by decide⟩

/-- `TrySubtract` succeeds exactly on componentwise-subtractable usage,
and then returns the componentwise difference. -/
theorem trySubtract_eq_some_iff (r u r2 : Resources) :
    r.TrySubtract u = some r2 ↔
      Resources.Le u r ∧
        r2 = ⟨r.cpu - u.cpu, r.mem - u.mem, r.disk - u.disk, r.gpu - u.gpu⟩ := by
  unfold Resources.TrySubtract Resources.Le
  split_ifs with h
  · constructor
    · intro he
      exact ⟨h, (Option.some.inj he).symm⟩
    · rintro ⟨-, he⟩
      rw [he]
  · constructor
    · intro he
      simp at he
    · rintro ⟨hle, -⟩
      exact absurd hle h

/-- `TrySubtract` succeeds exactly when the usage is componentwise below
the budget. -/
theorem trySubtract_isSome_iff (r u : Resources) :
    (r.TrySubtract u).isSome ↔ Resources.Le u r := by
  unfold Resources.TrySubtract Resources.Le
  split_ifs with h <;> simp [h]

/-- Budget invariant of the fill loop: the assigned prefix's total port
demand stays within the initial ports and its total scalar demand within
the initial (non-negative) budget. -/
theorem fillOfferLoop_budget (l : List Assignment) :
    ∀ p r, r.NonNeg →
      totalPorts (fillOfferLoop p r l).1 ≤ p ∧
        Resources.Le (totalUsage (fillOfferLoop p r l).1) r := by
  induction l with
  | nil =>
    intro p r hr
    obtain ⟨hn1, hn2, hn3, hn4⟩ := hr
    constructor
    · simp [fillOfferLoop, totalPorts]
    · simp only [fillOfferLoop, totalUsage, List.foldr_nil, Resources.Le]
      exact ⟨hn1, hn2, hn3, hn4⟩
  | cons a rest ih =>
    intro p r hr
    obtain ⟨hn1, hn2, hn3, hn4⟩ := hr
    by_cases hp : p < a.numPorts
    · constructor
      · simp [fillOfferLoop, hp, totalPorts]
      · simp only [fillOfferLoop, if_pos hp, totalUsage, List.foldr_nil, Resources.Le]
        exact ⟨hn1, hn2, hn3, hn4⟩
    · cases hts : r.TrySubtract a.resource with
      | none =>
        constructor
        · simp [fillOfferLoop, hp, hts, totalPorts]
        · simp only [fillOfferLoop, if_neg hp, hts, totalUsage, List.foldr_nil, Resources.Le]
          exact ⟨hn1, hn2, hn3, hn4⟩
      | some r2 =>
        obtain ⟨hle, hr2⟩ := (trySubtract_eq_some_iff r a.resource r2).1 hts
        obtain ⟨hl1, hl2, hl3, hl4⟩ := hle
        have hr2n : r2.NonNeg := by
          subst hr2
          refine ⟨?_, ?_, ?_, ?_⟩ <;> dsimp only <;> linarith
        obtain ⟨ihp, ihu⟩ := ih (p - a.numPorts) r2 hr2n
        constructor
        · simp only [fillOfferLoop, if_neg hp, hts, totalPorts, List.map_cons,
            List.sum_cons] at ihp ⊢
          omega
        · unfold Resources.Le at ihu
          subst hr2
          obtain ⟨hu1, hu2, hu3, hu4⟩ := ihu
          simp only [fillOfferLoop, if_neg hp, hts, totalUsage, List.foldr_cons,
            Resources.Le, Resources.add] at hu1 hu2 hu3 hu4 ⊢
          refine ⟨?_, ?_, ?_, ?_⟩ <;> dsimp only at * <;> linarith

/-- C3: placement sufficiency. After `fillOffer`, the total scalar demand
(cpu, mem, disk, gpu) of the assignments assigned to the offer subtracts
from the offer's resources without going negative, and their total port
demand does not exceed the ports available in the offer's port ranges. -/
theorem fillOffer_placement_sufficiency (offer : Host) (unassigned : List Assignment)
    (h : offer.resources.NonNeg) :
    totalPorts (fillOffer offer unassigned).1 ≤ availablePorts offer.portRanges ∧
      (offer.resources.TrySubtract (totalUsage (fillOffer offer unassigned).1)).isSome := by
  obtain ⟨h1, h2⟩ :=
    fillOfferLoop_budget unassigned (availablePorts offer.portRanges) offer.resources h
  exact ⟨h1, (trySubtract_isSome_iff _ _).2 h2⟩

/-- C3 witness: scenario S1 (offer 4 cpus, 4096 mem, ports 100..103; two
tasks of 2 cpus, 1024 mem, 2 ports), the hypothesis evaluated by
`decide`. -/
theorem fillOffer_placement_sufficiency_witness :
    offerS1.resources.NonNeg ∧
      (totalPorts (fillOffer offerS1 tasksS1).1 ≤ availablePorts offerS1.portRanges ∧
        (offerS1.resources.TrySubtract (totalUsage (fillOffer offerS1 tasksS1).1)).isSome) :=
  ⟨by decide, fillOffer_placement_sufficiency offerS1 tasksS1 (by decide)⟩

/-- First-fit shape of the fill loop: the result splits the input into the
assigned prefix and the untouched suffix, every prefix element is admitted
in order within the running budgets, and when the suffix is non-empty its
head is exactly the first assignment that does not fit the remaining
budgets. -/
theorem fillOfferLoop_first_fit (l : List Assignment) :
    ∀ p r,
      (fillOfferLoop p r l).1 ++ (fillOfferLoop p r l).2 = l ∧
        ∃ st, admitAll (p, r) (fillOfferLoop p r l).1 = some st ∧
          ∀ b ∈ (fillOfferLoop p r l).2.head?, fitsStep st b = none := by
  induction l with
  | nil =>
    intro p r
    exact ⟨rfl, ⟨(p, r), rfl, by simp [fillOfferLoop]⟩⟩
  | cons a rest ih =>
    intro p r
    by_cases hp : p < a.numPorts
    · refine ⟨by simp [fillOfferLoop, hp], (p, r), by simp [fillOfferLoop, hp, admitAll], ?_⟩
      intro b hb
      simp only [fillOfferLoop, if_pos hp, List.head?_cons, Option.mem_def,
        Option.some.injEq] at hb
      subst hb
      simp [fitsStep, hp]
    · cases hts : r.TrySubtract a.resource with
      | none =>
        refine ⟨by simp [fillOfferLoop, hp, hts], (p, r),
          by simp [fillOfferLoop, hp, hts, admitAll], ?_⟩
        intro b hb
        simp only [fillOfferLoop, if_neg hp, hts, List.head?_cons, Option.mem_def,
          Option.some.injEq] at hb
        subst hb
        simp [fitsStep, hp, hts]
      | some r2 =>
        obtain ⟨hap, st, hadm, hhead⟩ := ih (p - a.numPorts) r2
        refine ⟨?_, st, ?_, ?_⟩
        · simp only [fillOfferLoop, if_neg hp, hts, List.cons_append, List.cons.injEq]
          exact ⟨by trivial, hap⟩
        · simpa [fillOfferLoop, hp, hts, admitAll, fitsStep] using hadm
        · intro b hb
          simp only [fillOfferLoop, if_neg hp, hts] at hb
          exact hhead b hb

/-- C4: `fillOffer` walks the assignments in input order, admits each one
that fits the remaining budgets, stops at the first one that does not fit
and returns exactly the tail of the input starting there (the empty list
when all fit). -/
theorem fillOffer_first_fit_tail (offer : Host) (unassigned : List Assignment) :
    (fillOffer offer unassigned).1 ++ (fillOffer offer unassigned).2 = unassigned ∧
      ∃ st,
        admitAll (availablePorts offer.portRanges, offer.resources)
            (fillOffer offer unassigned).1 = some st ∧
          ∀ b ∈ (fillOffer offer unassigned).2.head?, fitsStep st b = none :=
  fillOfferLoop_first_fit unassigned (availablePorts offer.portRanges) offer.resources

/-- C8: the Mesos-to-Peloton state translation is exactly the fixed total
function the claim tabulates: STAGING/STARTING to LAUNCHED,
RUNNING/KILLING to RUNNING, FINISHED to SUCCEEDED, FAILED/ERROR to FAILED,
KILLED to KILLED, LOST to LOST, everything else to INITIALIZED. -/
theorem mesosStateToPelotonState_matches_claim :
    ∀ m, MesosStateToPelotonState m = mesosStateToPelotonStateClaim m := by
  intro m
  cases m <;> rfl

/-- Go's Atoi, as embedded, succeeds exactly on the syntactically valid
decimal integer segments and then returns their value. -/
theorem goAtoi_characterization (l : List Char) :
    goAtoi l = if isDecimalIntChars l then some (decimalIntCharsVal l) else none := by
  cases l with
  | nil => simp [goAtoi, isDecimalIntChars, stripSign, isDigits]
  | cons c rest =>
    by_cases h1 : c = '+'
    · subst h1
      simp [goAtoi, isDecimalIntChars, decimalIntCharsVal, stripSign]
    · by_cases h2 : c = '-'
      · subst h2
        simp [goAtoi, isDecimalIntChars, decimalIntCharsVal, stripSign]
      · have hor : ¬(c = '+' ∨ c = '-') := by
          rintro (h | h) <;> contradiction
        simp [goAtoi, isDecimalIntChars, decimalIntCharsVal, stripSign, if_neg hor,
          if_neg h1, if_neg h2]

/-- C9: the mesos task-id parser splits on '-' and succeeds exactly when
there are at least two segments and the second is a decimal integer (Go
integer syntax: optional sign, digits, 64-bit int range); on success it
returns the first segment joined with the numeric instance id. -/
theorem parseTaskIDFromMesosTaskID_matches_claim (s : String) :
    (ParseTaskIDFromMesosTaskID s).toOption = parseTaskIDClaim s := by
  unfold ParseTaskIDFromMesosTaskID parseTaskIDClaim
  by_cases hlen : (s.splitOn "-").length < 2
  · rw [if_pos hlen, if_neg]
    · rfl
    · rintro ⟨h2, -⟩
      omega
  · rw [if_neg hlen, goAtoi_characterization]
    by_cases hseg : isDecimalIntChars ((s.splitOn "-").getD 1 "").data
    · rw [if_pos hseg, if_pos ⟨by omega, hseg⟩]
      rfl
    · rw [if_neg hseg, if_neg]
      · rfl
      · rintro ⟨-, h⟩
        exact hseg h

/-- C5: `RemoveExpiredOffers` returns and removes exactly the offers
whose age exceeds the hold time — every offer when forced — leaving
exactly the younger offers (and the hold time) in the pool. -/
theorem removeExpiredOffers_characterization (p : OfferPool) (now : Int) (force : Bool)
    (o : PoolOffer) :
    (o ∈ (RemoveExpiredOffers p now force).1 ↔
        o ∈ p.offers ∧ (force = true ∨ p.offerHoldTime < now - o.timestamp)) ∧
      (o ∈ (RemoveExpiredOffers p now force).2.offers ↔
        o ∈ p.offers ∧ force = false ∧ now - o.timestamp ≤ p.offerHoldTime) ∧
      (RemoveExpiredOffers p now force).2.offerHoldTime = p.offerHoldTime := by
  unfold RemoveExpiredOffers
  refine ⟨?_, ?_, rfl⟩
  · simp [List.mem_filter]
  · simp only [List.mem_filter, Bool.not_eq_true', Bool.or_eq_false_iff,
      decide_eq_false_iff_not, not_lt, and_assoc]

/-- C6: when the failed-instance count reaches a positive
`max_failure_instances`, the run either rolls back — with
`rollback_on_failure` set and the update ROLLING_FORWARD, the current and
target config versions are swapped and the state becomes
ROLLING_BACKWARD — or writes progress with state FAILED and enqueues the
update for finalization. -/
theorem updateRun_failure_policy (u : UpdateData) (cfg : UpdateConfig)
    (classes : List InstanceClass) (hpos : 0 < cfg.maxFailureInstances)
    (hfail : cfg.maxFailureInstances ≤ failedCount classes) :
    updateRunProgress u cfg classes =
      (if cfg.rollbackOnFailure ∧ u.state = UpdateState.ROLLING_FORWARD then
        UpdateRunOutcome.rollbackToBackward
          { state := UpdateState.ROLLING_BACKWARD,
            currentJobVersion := u.targetJobVersion,
            targetJobVersion := u.currentJobVersion }
      else UpdateRunOutcome.writeFailedAndFinalize) := by
  unfold updateRunProgress
  rw [if_pos ⟨hpos, hfail⟩]

/-- C6 witness: scenario S4 — 7 instances, 3 failed, max_failure 3,
rollback on failure, state ROLLING_FORWARD — the hypotheses evaluated by
`decide`; the outcome swaps versions 3 and 4 and goes ROLLING_BACKWARD. -/
theorem updateRun_failure_policy_witness :
    0 < cfgS4.maxFailureInstances ∧
      cfgS4.maxFailureInstances ≤ failedCount classesS4 ∧
      updateRunProgress updateS4 cfgS4 classesS4 =
        (if cfgS4.rollbackOnFailure ∧ updateS4.state = UpdateState.ROLLING_FORWARD then
          UpdateRunOutcome.rollbackToBackward
            { state := UpdateState.ROLLING_BACKWARD,
              currentJobVersion := updateS4.targetJobVersion,
              targetJobVersion := updateS4.currentJobVersion }
        else UpdateRunOutcome.writeFailedAndFinalize) :=
  ⟨by decide, by decide,
    updateRun_failure_policy updateS4 cfgS4 classesS4 (by decide) (by decide)⟩

/-- C7 (code bug): recovery creates a missing instance with state
INITIALIZED but with goal state SUCCEEDED regardless of the job's type —
for a SERVICE job the claimed default is RUNNING
(`GetDefaultTaskGoalState`), which `createTaskForJob` never consults (the
source marks this with a TODO). The requeue half of the claim holds: a
stored INITIALIZED instance is requeued, not recreated. -/
theorem recovery_service_goal_state_diverges :
    recoverInstance "job0" 1 "uuid" none =
        RecoverAction.createAndRequeue (createTaskForJob "job0" 1 "uuid") ∧
      (createTaskForJob "job0" 1 "uuid").runtime.state = TaskState.INITIALIZED ∧
      (createTaskForJob "job0" 1 "uuid").runtime.goalState = TaskState.SUCCEEDED ∧
      GetDefaultTaskGoalState JobType.SERVICE = TaskState.RUNNING ∧
      (createTaskForJob "job0" 1 "uuid").runtime.goalState ≠
        GetDefaultTaskGoalState JobType.SERVICE ∧
      recoverInstance "job0" 0 "uuid2" (some (createTaskForJob "job0" 0 "uuid2")) =
        RecoverAction.requeue :=
  ⟨rfl, rfl, rfl, rfl, by decide, rfl⟩

/-- C10: `reloadRuntime` returns a non-nil error even when the store read
succeeds; the cache is nevertheless first updated (through
`UpdateRuntime`) with the runtime read from the store. -/
theorem reloadRuntime_always_errors (t : TaskData) (rt : RuntimeInfo) (now : Int) :
    (reloadRuntime t (.ok rt) now).2.isOk = false ∧
      (reloadRuntime t (.ok rt) now).2 = .error "runtime reloaded after error" ∧
      (reloadRuntime t (.ok rt) now).1 = updateRuntime t (some rt) now :=
  ⟨rfl, rfl, rfl⟩

end Peloton
